import Mathlib

/-!
Shallow embedding of `main.go` of gitlab-ci-pipelines-exporter.

The embedding mirrors the Go source:
* `project` is the configured `{Name, Ref}` entry (main.go lines 28-31).
* `GoProject` stands for `*gitlab.Project` (the fields the program reads:
  `ID`, `Name`, `PathWithNamespace`).
* `PipelineInfo` is an element of the `ListProjectPipelines` result
  (fields read: `ID`, `Status`).
* `PipelineDetail` stands for `*gitlab.Pipeline` returned by `GetPipeline`
  (fields read: `ID`, `Status`, `Duration`, `CreatedAt`); the `CreatedAt`
  field is a pointer in Go, modelled as `Option Int` (nanoseconds since the
  epoch); a `none` models a nil pointer.
* `Api` packages the GitLab client calls the polling code makes.  An
  `ApiResult.err` models a non-nil `error` return.  `GetPipeline`'s error is
  discarded by the source (`lastPipeline, _, _ = ...`), so only the returned
  pointer matters: it is modelled as `Option PipelineDetail`, `none` being a
  nil pointer.
* The Prometheus metric vectors are modelled as functions from label tuples
  to `Option Int`: `none` means the labelled series does not exist,
  `some v` means it exists and reads `v`.  `WithLabelValues` instantiates a
  series at 0 when absent; `Set` writes, `Inc` adds 1.  All values that the
  program ever writes are integers (durations in whole seconds, a rounded
  number of seconds, 0/1 status flags, counter values), so `Int` values are
  an exact model of the float64 gauges.
* `taskOnce` is a line-by-line translation of main.go lines 89-125,
  returning a `TaskFlag` (normal return, `log.Fatalf`+`os.Exit` process death,
  or nil-pointer-dereference panic) together with the metric state as
  updated by the writes that happened before the function ended.
-/

structure project where
  name : String
  ref : String
deriving DecidableEq, Repr

structure GoProject where
  id : Int
  name : String
  pathWithNamespace : String
deriving DecidableEq, Repr

structure PipelineInfo where
  id : Int
  status : String
deriving DecidableEq, Repr

structure PipelineDetail where
  id : Int
  status : String
  duration : Int
  created_at : Option Int
deriving DecidableEq, Repr

inductive ApiResult (α : Type) where
  | ok (a : α)
  | err
deriving DecidableEq, Repr

structure Api where
  getProjectApi : String → ApiResult GoProject
  listPipelines : Int → String → ApiResult (List PipelineInfo)
  getPipeline : Int → Int → Option PipelineDetail

/-- Label key for the `timeSinceLastRun`, `lastRunDuration` and `runCount`
vectors: `(project, ref)`. -/
abbrev LabelKey := String × String

/-- Label key for the `status` vector: `(project, ref, status)`. -/
abbrev StatusKey := String × String × String

/-- The four registered metric vectors (main.go lines 38-69).  A series that
was never instantiated is `none`. -/
structure Metrics where
  timeSinceLastRun : LabelKey → Option Int
  lastRunDuration : LabelKey → Option Int
  runCount : LabelKey → Option Int
  status : StatusKey → Option Int

/-- The metric registry right after startup: the four vectors are registered
but hold no series. -/
def initMetrics : Metrics :=
  { timeSinceLastRun := fun _ => none
    lastRunDuration := fun _ => none
    runCount := fun _ => none
    status := fun _ => none }

/-- `vec.WithLabelValues(...).Set(v)`: write `v`, creating the series if
absent. -/
def gaugeSet {α : Type} [DecidableEq α] (f : α → Option Int) (k : α) (v : Int) :
    α → Option Int :=
  fun x => if x = k then some v else f x

/-- `vec.WithLabelValues(...)` alone (main.go line 95): instantiate the
series at 0 when absent, keep its value otherwise. -/
def counterWith {α : Type} [DecidableEq α] (f : α → Option Int) (k : α) :
    α → Option Int :=
  fun x => if x = k then some ((f k).getD 0) else f x

/-- `vec.WithLabelValues(...).Inc()`: add 1, creating at 0 first when
absent. -/
def counterInc {α : Type} [DecidableEq α] (f : α → Option Int) (k : α) :
    α → Option Int :=
  fun x => if x = k then some ((f k).getD 0 + 1) else f x

/-- The status values enumerated in the loop of main.go line 114. -/
def recognizedStatuses : List String := ["success", "failed", "running"]

/-- The loop of main.go lines 114-120: for each recognized status value set
its gauge for `(p.Name, p.Ref)` to 1 when it equals the fetched pipeline
status, else 0. -/
def statusUpdate (f : StatusKey → Option Int) (name ref st : String) :
    StatusKey → Option Int :=
  recognizedStatuses.foldl
    (fun g s => gaugeSet g (name, ref, s) (if s = st then 1 else 0)) f

/-- The condition of main.go line 105:
`lastPipeline == nil || lastPipeline.ID != pipelines[0].ID ||
lastPipeline.Status != pipelines[0].Status`. -/
def pipelineChanged : Option PipelineDetail → PipelineInfo → Bool
  | none, _ => true
  | some lp, p0 => lp.id != p0.id || lp.status != p0.status

/-- How a call of `taskOnce` ends: normal return, process death via
`log.Fatalf` / `os.Exit(1)`, or a nil-pointer-dereference panic. -/
inductive TaskFlag where
  | ok
  | fatal
  | nilDeref
deriving DecidableEq, Repr

/-- Nanoseconds per second: Go's `time.Second` as a `time.Duration`. -/
def nsPerSecond : Int := 1000000000

/-- Go's `time.Duration.Round(time.Second)`: the nearest multiple of a
second, ties rounding away from zero (Go `%` truncates toward zero, hence
`Int.tmod`). -/
def durationRoundSecond (d : Int) : Int :=
  let r := Int.tmod d nsPerSecond
  if 0 ≤ d then
    if r + r < nsPerSecond then d - r else d - r + nsPerSecond
  else
    if -(r + r) < nsPerSecond then d - r else d - r - nsPerSecond

/-- main.go line 123: `time.Since(created).Round(time.Second).Seconds()`.
After rounding, the duration is an exact multiple of a second, so the
float64 result is the integer quotient. -/
def roundedSeconds (d : Int) : Int :=
  Int.tdiv (durationRoundSecond d) nsPerSecond

/-- main.go lines 80-87: fetch the project; on API error `log.Fatalf` kills
the process. -/
def getProject (p : project) (api : Api) : ApiResult GoProject :=
  api.getProjectApi p.name

/-- Line-by-line translation of `taskOnce` (main.go lines 89-125).  The
variable `lastPipeline` is declared inside the function (line 94), so each
call starts with it nil; it never holds the previous poll's snapshot. -/
def taskOnce (p : project) (api : Api) (now : Int) (m0 : Metrics) :
    TaskFlag × Metrics :=
  match getProject p api with
  | ApiResult.err => (TaskFlag.fatal, m0)
  | ApiResult.ok gp =>
    -- line 94: var lastPipeline *gitlab.Pipeline  (function local, nil)
    let lastPipeline0 : Option PipelineDetail := none
    -- line 95: runCount.WithLabelValues(p.Name, p.Ref)
    let m1 : Metrics := { m0 with runCount := counterWith m0.runCount (p.name, p.ref) }
    match api.listPipelines gp.id p.ref with
    | ApiResult.err => (TaskFlag.fatal, m1)          -- lines 98-101
    | ApiResult.ok pipelines =>
      match pipelines with
      | [] => (TaskFlag.ok, m1)                       -- lines 102-104
      | p0 :: _ =>
        if pipelineChanged lastPipeline0 p0 then  -- line 105
          -- lines 106-108: increment only when a previous snapshot existed
          let m2 : Metrics :=
            if lastPipeline0.isSome then
              { m1 with runCount := counterInc m1.runCount (p.name, p.ref) }
            else m1
          -- line 110: lastPipeline, _, _ = GetPipeline(...)
          match api.getPipeline gp.id p0.id with
          | none => (TaskFlag.nilDeref, m2)           -- line 112 dereferences nil
          | some lp =>
            -- line 112
            let m3 : Metrics :=
              { m2 with lastRunDuration := gaugeSet m2.lastRunDuration (p.name, p.ref) lp.duration }
            -- lines 114-120
            let m4 : Metrics :=
              { m3 with status := statusUpdate m3.status p.name p.ref lp.status }
            -- line 123: *lastPipeline.CreatedAt dereferences the pointer
            match lp.created_at with
            | none => (TaskFlag.nilDeref, m4)
            | some t =>
              let m5 : Metrics :=
                { m4 with timeSinceLastRun := gaugeSet m4.timeSinceLastRun (p.name, p.ref) (roundedSeconds (now - t)) }
              (TaskFlag.ok, m5)
        else
          -- line 123 with lastPipeline still nil: nil dereference.
          -- (Unreachable: lastPipeline0 is nil so line 105 is always true.)
          (TaskFlag.nilDeref, m1)

/-- Wildcard handling of one configured entry (main.go lines 129-142):
a `"*"` entry becomes one target per owned project (the result of
`ListProjects(Owned: true)`), each paired with the entry's ref; any other
entry is polled as it is. -/
def expandOne (owned : List GoProject) (p : project) : List project :=
  if p.name = "*" then
    owned.map (fun pw => { name := pw.pathWithNamespace, ref := p.ref })
  else [p]

/-- One scheduler cycle's target list (the loop body of main.go
lines 129-143). -/
def expandTargets (owned : List GoProject) (ps : List project) : List project :=
  ps.flatMap (expandOne owned)

/-! ### Concrete fixtures used by witnesses and counterexamples -/

/-- A configured target. -/
def pA : project := { name := "proj-a", ref := "main" }

/-- The GitLab project record the API returns for `pA`. -/
def gpA : GoProject := { id := 7, name := "proj-a", pathWithNamespace := "group/proj-a" }

/-- An API whose pipeline listing and detail fetch are fixed. -/
def mkApi (pl : List PipelineInfo) (detail : Option PipelineDetail) : Api :=
  { getProjectApi := fun _ => ApiResult.ok gpA
    listPipelines := fun _ _ => ApiResult.ok pl
    getPipeline := fun _ _ => detail }

/-- API returning an empty pipeline list. -/
def apiEmpty : Api := mkApi [] none

/-- API returning pipeline 101 running, detail duration 10, created at 0. -/
def apiRun101 : Api :=
  mkApi [{ id := 101, status := "running" }]
    (some { id := 101, status := "running", duration := 10, created_at := some 0 })

/-- API returning the same pipeline 101 running, but the re-fetched detail
now reports duration 20. -/
def apiRun101b : Api :=
  mkApi [{ id := 101, status := "running" }]
    (some { id := 101, status := "running", duration := 20, created_at := some 0 })

/-- API returning pipeline 101 with status success, duration 42. -/
def apiSucc101 : Api :=
  mkApi [{ id := 101, status := "success" }]
    (some { id := 101, status := "success", duration := 42, created_at := some 0 })

/-- API returning pipeline 101 with the unrecognized status `pending`. -/
def apiPending : Api :=
  mkApi [{ id := 101, status := "pending" }]
    (some { id := 101, status := "pending", duration := 5, created_at := some 0 })

/-- API whose project fetch fails. -/
def apiErrProject : Api :=
  { getProjectApi := fun _ => ApiResult.err
    listPipelines := fun _ _ => ApiResult.ok []
    getPipeline := fun _ _ => none }

/-- API whose pipeline listing fails. -/
def apiErrList : Api :=
  { getProjectApi := fun _ => ApiResult.ok gpA
    listPipelines := fun _ _ => ApiResult.err
    getPipeline := fun _ _ => none }

/-- API whose detail fetch returns a nil pipeline pointer. -/
def apiNilDetail : Api := mkApi [{ id := 101, status := "running" }] none

/-- API whose detail fetch returns a pipeline with a nil `CreatedAt`. -/
def apiNilCreated : Api :=
  mkApi [{ id := 101, status := "running" }]
    (some { id := 101, status := "running", duration := 10, created_at := none })

/-- Metric state after one poll of `pA` against `apiRun101` at time 0. -/
def mRun1 : Metrics := (taskOnce pA apiRun101 0 initMetrics).2

example : (taskOnce pA apiEmpty 0 initMetrics).1 = TaskFlag.ok := by decide
example : (taskOnce pA apiEmpty 0 initMetrics).2.runCount ("proj-a", "main") = some 0 := by decide
example : mRun1.runCount ("proj-a", "main") = some 0 := by decide
example : mRun1.lastRunDuration ("proj-a", "main") = some 10 := by decide
example : mRun1.status ("proj-a", "main", "running") = some 1 := by decide
example : mRun1.timeSinceLastRun ("proj-a", "main") = some 0 := by decide
example : (taskOnce pA apiSucc101 60000000000 mRun1).2.runCount ("proj-a", "main") = some 0 := by decide
example : roundedSeconds (5499999999 - 0) = 5 := by decide
example : roundedSeconds (5500000000 - 0) = 6 := by decide
example : roundedSeconds (-5500000000) = -6 := by decide

/-! ### Helper lemmas -/

/-- On the fully successful path (project found, non-empty pipeline list,
detail fetch returns a pipeline with a creation time), `taskOnce` returns
normally and performs exactly the four metric writes of main.go
lines 95, 112, 114-120 and 123, with no `run_count` increment. -/
theorem taskOnce_ok_eq (p : project) (api : Api) (now : Int) (m0 : Metrics)
    (gp : GoProject) (p0 : PipelineInfo) (rest : List PipelineInfo)
    (lp : PipelineDetail) (t : Int)
    (h1 : api.getProjectApi p.name = ApiResult.ok gp)
    (h2 : api.listPipelines gp.id p.ref = ApiResult.ok (p0 :: rest))
    (h3 : api.getPipeline gp.id p0.id = some lp)
    (h4 : lp.created_at = some t) :
    taskOnce p api now m0 =
      (TaskFlag.ok,
        { timeSinceLastRun := gaugeSet m0.timeSinceLastRun (p.name, p.ref) (roundedSeconds (now - t))
          lastRunDuration := gaugeSet m0.lastRunDuration (p.name, p.ref) lp.duration
          runCount := counterWith m0.runCount (p.name, p.ref)
          status := statusUpdate m0.status p.name p.ref lp.status }) := by
  simp [taskOnce, getProject, h1, h2, h3, h4, pipelineChanged]

/-- On an empty pipeline list, `taskOnce` returns normally having performed
only the series instantiation of main.go line 95. -/
theorem taskOnce_empty_eq (p : project) (api : Api) (now : Int) (m0 : Metrics)
    (gp : GoProject)
    (h1 : api.getProjectApi p.name = ApiResult.ok gp)
    (h2 : api.listPipelines gp.id p.ref = ApiResult.ok []) :
    taskOnce p api now m0 =
      (TaskFlag.ok, { m0 with runCount := counterWith m0.runCount (p.name, p.ref) }) := by
  simp [taskOnce, getProject, h1, h2]

/-- Polling target `p` writes none of the three `(project, ref)`-labelled
vectors outside the label key `(p.name, p.ref)`, whatever the API returns
and however the call ends. -/
theorem taskOnce_frame_label (p : project) (api : Api) (now : Int) (m0 : Metrics)
    (k : LabelKey) (hk : k ≠ (p.name, p.ref)) :
    (taskOnce p api now m0).2.timeSinceLastRun k = m0.timeSinceLastRun k ∧
    (taskOnce p api now m0).2.lastRunDuration k = m0.lastRunDuration k ∧
    (taskOnce p api now m0).2.runCount k = m0.runCount k := by
  unfold taskOnce
  cases hgp : getProject p api with
  | err => exact ⟨rfl, rfl, rfl⟩
  | ok gp =>
    cases hl : api.listPipelines gp.id p.ref with
    | err => simp [hl, counterWith, hk]
    | ok pipelines =>
      cases pipelines with
      | nil => simp [hl, counterWith, hk]
      | cons p0 rest =>
        cases hd : api.getPipeline gp.id p0.id with
        | none => simp [hl, hd, pipelineChanged, counterWith, hk]
        | some lp =>
          cases hc : lp.created_at with
          | none => simp [hl, hd, hc, pipelineChanged, counterWith, gaugeSet, hk]
          | some t => simp [hl, hd, hc, pipelineChanged, counterWith, gaugeSet, hk]

/-- Polling target `p` writes no `status` series whose `(project, ref)`
label components differ from `(p.name, p.ref)`. -/
theorem taskOnce_frame_status (p : project) (api : Api) (now : Int) (m0 : Metrics)
    (q : StatusKey) (hq : (q.1, q.2.1) ≠ (p.name, p.ref)) :
    (taskOnce p api now m0).2.status q = m0.status q := by
  obtain ⟨q1, q2, q3⟩ := q
  have hq3 : ∀ s : String, ((q1, q2, q3) : StatusKey) ≠ (p.name, p.ref, s) := by
    intro s h
    apply hq
    simp only [Prod.mk.injEq] at h
    simp [h.1, h.2.1]
  unfold taskOnce
  cases hgp : getProject p api with
  | err => rfl
  | ok gp =>
    cases hl : api.listPipelines gp.id p.ref with
    | err => simp [hl]
    | ok pipelines =>
      cases pipelines with
      | nil => simp [hl]
      | cons p0 rest =>
        cases hd : api.getPipeline gp.id p0.id with
        | none => simp [hl, hd, pipelineChanged]
        | some lp =>
          cases hc : lp.created_at with
          | none =>
            simp [hl, hd, hc, pipelineChanged, gaugeSet, statusUpdate,
              recognizedStatuses, hq3]
          | some t =>
            simp [hl, hd, hc, pipelineChanged, gaugeSet, statusUpdate,
              recognizedStatuses, hq3]

/-! ### Claim theorems -/

/-- C7: a platform API error while fetching the project or while listing its
pipelines makes `taskOnce` end in `log.Fatalf` + `os.Exit(1)` (modelled
`TaskFlag.fatal`): the process dies instead of continuing with other
targets or the next cycle. -/
theorem apiError_fatal (p : project) (api : Api) (now : Int) (m0 : Metrics) :
    (api.getProjectApi p.name = ApiResult.err →
      (taskOnce p api now m0).1 = TaskFlag.fatal) ∧
    (∀ gp : GoProject, api.getProjectApi p.name = ApiResult.ok gp →
      api.listPipelines gp.id p.ref = ApiResult.err →
      (taskOnce p api now m0).1 = TaskFlag.fatal) := by
  constructor
  · intro h
    simp [taskOnce, getProject, h]
  · intro gp h1 h2
    simp [taskOnce, getProject, h1, h2]

/-- C7 witness: both fatal paths at concrete inputs. -/
theorem apiError_fatal_witness :
    apiErrProject.getProjectApi pA.name = ApiResult.err ∧
    (taskOnce pA apiErrProject 0 initMetrics).1 = TaskFlag.fatal ∧
    apiErrList.getProjectApi pA.name = ApiResult.ok gpA ∧
    apiErrList.listPipelines gpA.id pA.ref = ApiResult.err ∧
    (taskOnce pA apiErrList 0 initMetrics).1 = TaskFlag.fatal :=
  ⟨rfl, (apiError_fatal pA apiErrProject 0 initMetrics).1 rfl, rfl, rfl,
    (apiError_fatal pA apiErrList 0 initMetrics).2 gpA rfl rfl⟩

/-- C9: on every poll that observes a pipeline (non-empty list, detail
fetched with a creation time), `time_since_last_run` is set to the elapsed
nanoseconds between `now` and the snapshot's creation time, rounded to
whole seconds (Go `time.Since(...).Round(time.Second).Seconds()`). -/
theorem timeSince_recomputed (p : project) (api : Api) (now : Int) (m0 : Metrics)
    (gp : GoProject) (p0 : PipelineInfo) (rest : List PipelineInfo)
    (lp : PipelineDetail) (t : Int)
    (h1 : api.getProjectApi p.name = ApiResult.ok gp)
    (h2 : api.listPipelines gp.id p.ref = ApiResult.ok (p0 :: rest))
    (h3 : api.getPipeline gp.id p0.id = some lp)
    (h4 : lp.created_at = some t) :
    (taskOnce p api now m0).1 = TaskFlag.ok ∧
    (taskOnce p api now m0).2.timeSinceLastRun (p.name, p.ref) =
      some (roundedSeconds (now - t)) := by
  rw [taskOnce_ok_eq p api now m0 gp p0 rest lp t h1 h2 h3 h4]
  simp [gaugeSet]

/-- C9 witness: a poll at now = 5.5e9 ns of a pipeline created at 0 sets
`time_since_last_run` to 6 (5.5 seconds rounds up). -/
theorem timeSince_recomputed_witness :
    apiRun101.getProjectApi pA.name = ApiResult.ok gpA ∧
    apiRun101.listPipelines gpA.id pA.ref =
      ApiResult.ok [{ id := 101, status := "running" }] ∧
    apiRun101.getPipeline gpA.id 101 =
      some { id := 101, status := "running", duration := 10, created_at := some 0 } ∧
    (taskOnce pA apiRun101 5500000000 initMetrics).2.timeSinceLastRun (pA.name, pA.ref) =
      some (roundedSeconds (5500000000 - 0)) ∧
    roundedSeconds (5500000000 - 0) = 6 :=
  ⟨rfl, rfl, rfl,
    (timeSince_recomputed pA apiRun101 5500000000 initMetrics gpA
      { id := 101, status := "running" } []
      { id := 101, status := "running", duration := 10, created_at := some 0 } 0
      rfl rfl rfl rfl).2,
    by decide⟩

/-- C8: the very first observed snapshot for a target (its `run_count`
series absent, or present at 0 from earlier empty polls) never increments
`run_count`, whatever the observed pipeline id and status: after the poll
the counter reads 0. -/
theorem firstSnapshot_no_increment (p : project) (api : Api) (now : Int)
    (m0 : Metrics) (gp : GoProject) (p0 : PipelineInfo)
    (rest : List PipelineInfo) (lp : PipelineDetail) (t : Int)
    (h0 : m0.runCount (p.name, p.ref) = none ∨ m0.runCount (p.name, p.ref) = some 0)
    (h1 : api.getProjectApi p.name = ApiResult.ok gp)
    (h2 : api.listPipelines gp.id p.ref = ApiResult.ok (p0 :: rest))
    (h3 : api.getPipeline gp.id p0.id = some lp)
    (h4 : lp.created_at = some t) :
    (taskOnce p api now m0).1 = TaskFlag.ok ∧
    (taskOnce p api now m0).2.runCount (p.name, p.ref) = some 0 := by
  rw [taskOnce_ok_eq p api now m0 gp p0 rest lp t h1 h2 h3 h4]
  rcases h0 with h0 | h0 <;> simp [counterWith, h0]

/-- C8 witness: the first poll of a fresh target leaves `run_count` at 0. -/
theorem firstSnapshot_no_increment_witness :
    initMetrics.runCount (pA.name, pA.ref) = none ∧
    (taskOnce pA apiRun101 0 initMetrics).2.runCount (pA.name, pA.ref) = some 0 :=
  ⟨rfl,
    (firstSnapshot_no_increment pA apiRun101 0 initMetrics gpA
      { id := 101, status := "running" } []
      { id := 101, status := "running", duration := 10, created_at := some 0 } 0
      (Or.inl rfl) rfl rfl rfl rfl).2⟩

/-- C10: `taskOnce` discards the error and nilness of the `GetPipeline`
detail fetch and then dereferences the result: when the fetch returns a nil
pipeline, or a pipeline with a nil `CreatedAt`, the call ends in a nil
pointer dereference; it returns normally exactly when the fetch yields a
pipeline with a creation time — there is no guard making the failure
branches unreachable. -/
theorem detailFetch_unguarded_deref (p : project) (api : Api) (now : Int)
    (m0 : Metrics) (gp : GoProject) (p0 : PipelineInfo) (rest : List PipelineInfo)
    (h1 : api.getProjectApi p.name = ApiResult.ok gp)
    (h2 : api.listPipelines gp.id p.ref = ApiResult.ok (p0 :: rest)) :
    (api.getPipeline gp.id p0.id = none →
      (taskOnce p api now m0).1 = TaskFlag.nilDeref) ∧
    (∀ lp : PipelineDetail, api.getPipeline gp.id p0.id = some lp →
      lp.created_at = none → (taskOnce p api now m0).1 = TaskFlag.nilDeref) ∧
    (∀ lp : PipelineDetail, ∀ t : Int, api.getPipeline gp.id p0.id = some lp →
      lp.created_at = some t → (taskOnce p api now m0).1 = TaskFlag.ok) := by
  refine ⟨fun h3 => ?_, fun lp h3 hc => ?_, fun lp t h3 hc => ?_⟩ <;>
    simp [taskOnce, getProject, pipelineChanged, h1, h2, *]

/-- C10 witness: the three ending modes at concrete inputs. -/
theorem detailFetch_unguarded_deref_witness :
    (taskOnce pA apiNilDetail 0 initMetrics).1 = TaskFlag.nilDeref ∧
    (taskOnce pA apiNilCreated 0 initMetrics).1 = TaskFlag.nilDeref ∧
    (taskOnce pA apiRun101 0 initMetrics).1 = TaskFlag.ok :=
  ⟨(detailFetch_unguarded_deref pA apiNilDetail 0 initMetrics gpA
      { id := 101, status := "running" } [] rfl rfl).1 rfl,
    (detailFetch_unguarded_deref pA apiNilCreated 0 initMetrics gpA
      { id := 101, status := "running" } [] rfl rfl).2.1
      { id := 101, status := "running", duration := 10, created_at := none } rfl rfl,
    (detailFetch_unguarded_deref pA apiRun101 0 initMetrics gpA
      { id := 101, status := "running" } [] rfl rfl).2.2
      { id := 101, status := "running", duration := 10, created_at := some 0 } 0 rfl rfl⟩

/-- C4 counterexample: after observing pipeline 101 with the platform
status `pending` (a status the platform may report), all three recognized
status gauges for the target read 0 — none reads 1, so it is false that
exactly one reads 1 for every status value the platform may report. -/
theorem statusGauge_counterexample :
    (taskOnce pA apiPending 0 initMetrics).1 = TaskFlag.ok ∧
    (taskOnce pA apiPending 0 initMetrics).2.status ("proj-a", "main", "success") = some 0 ∧
    (taskOnce pA apiPending 0 initMetrics).2.status ("proj-a", "main", "failed") = some 0 ∧
    (taskOnce pA apiPending 0 initMetrics).2.status ("proj-a", "main", "running") = some 0 := by
  decide

/-- C4 (amended): after a poll that observes a pipeline, each recognized
status gauge of the target reads 1 exactly when its status value equals the
observed pipeline's status, else 0.  Hence exactly one gauge reads 1 when
the observed status is one of success, failed, running, and all three read
0 for any other platform status. -/
theorem statusGauge_one_active (p : project) (api : Api) (now : Int)
    (m0 : Metrics) (gp : GoProject) (p0 : PipelineInfo)
    (rest : List PipelineInfo) (lp : PipelineDetail) (t : Int)
    (h1 : api.getProjectApi p.name = ApiResult.ok gp)
    (h2 : api.listPipelines gp.id p.ref = ApiResult.ok (p0 :: rest))
    (h3 : api.getPipeline gp.id p0.id = some lp)
    (h4 : lp.created_at = some t) :
    (∀ s ∈ recognizedStatuses,
      (taskOnce p api now m0).2.status (p.name, p.ref, s) =
        some (if s = lp.status then 1 else 0)) ∧
    (lp.status ∈ recognizedStatuses →
      (taskOnce p api now m0).2.status (p.name, p.ref, lp.status) = some 1) ∧
    (∀ s ∈ recognizedStatuses, s ≠ lp.status →
      (taskOnce p api now m0).2.status (p.name, p.ref, s) = some 0) := by
  rw [taskOnce_ok_eq p api now m0 gp p0 rest lp t h1 h2 h3 h4]
  have hmain : ∀ s ∈ recognizedStatuses,
      (statusUpdate m0.status p.name p.ref lp.status) (p.name, p.ref, s) =
        some (if s = lp.status then 1 else 0) := by
    intro s hs
    fin_cases hs <;> simp [statusUpdate, recognizedStatuses, gaugeSet]
  refine ⟨hmain, ?_, ?_⟩
  · intro hmem
    have h := hmain lp.status hmem
    simpa using h
  · intro s hs hne
    have h := hmain s hs
    rwa [if_neg hne] at h

/-- C4 witness: observing status `success` drives the success gauge to 1
and the other two to 0. -/
theorem statusGauge_one_active_witness :
    "success" ∈ recognizedStatuses ∧
    (taskOnce pA apiSucc101 0 initMetrics).2.status (pA.name, pA.ref, "success") = some 1 ∧
    (taskOnce pA apiSucc101 0 initMetrics).2.status (pA.name, pA.ref, "running") = some 0 :=
  ⟨by decide,
    (statusGauge_one_active pA apiSucc101 0 initMetrics gpA
      { id := 101, status := "success" } []
      { id := 101, status := "success", duration := 42, created_at := some 0 } 0
      rfl rfl rfl rfl).2.1 (by decide),
    (statusGauge_one_active pA apiSucc101 0 initMetrics gpA
      { id := 101, status := "success" } []
      { id := 101, status := "success", duration := 42, created_at := some 0 } 0
      rfl rfl rfl rfl).2.2 "running" (by decide) (by decide)⟩

/-- C2 counterexample: a target whose pipeline list is empty on every poll
so far has, after one such poll, an existing `run_count` series reading 0
(main.go line 95 instantiates it before the empty check) — contradicting
the claim that no series exists in any of the four metric families. -/
theorem unseen_series_counterexample :
    (taskOnce pA apiEmpty 0 initMetrics).1 = TaskFlag.ok ∧
    (taskOnce pA apiEmpty 0 initMetrics).2.runCount ("proj-a", "main") = some 0 := by
  decide

/-- C2 (amended): before any poll no series exists in any family; a poll
whose pipeline list is empty leaves `time_since_last_run`,
`last_run_duration` and `status` untouched (absent series stay absent), but
instantiates the `run_count` series of the polled key at value 0. -/
theorem unseen_no_series (p : project) (api : Api) (now : Int) (m0 : Metrics)
    (gp : GoProject)
    (h1 : api.getProjectApi p.name = ApiResult.ok gp)
    (h2 : api.listPipelines gp.id p.ref = ApiResult.ok []) :
    ((∀ k : LabelKey, initMetrics.timeSinceLastRun k = none ∧
        initMetrics.lastRunDuration k = none ∧ initMetrics.runCount k = none) ∧
      (∀ q : StatusKey, initMetrics.status q = none)) ∧
    ((taskOnce p api now m0).1 = TaskFlag.ok ∧
      (taskOnce p api now m0).2.timeSinceLastRun = m0.timeSinceLastRun ∧
      (taskOnce p api now m0).2.lastRunDuration = m0.lastRunDuration ∧
      (taskOnce p api now m0).2.status = m0.status ∧
      (taskOnce p api now m0).2.runCount = counterWith m0.runCount (p.name, p.ref) ∧
      (taskOnce p api now m0).2.runCount (p.name, p.ref) =
        some ((m0.runCount (p.name, p.ref)).getD 0)) := by
  rw [taskOnce_empty_eq p api now m0 gp h1 h2]
  exact ⟨⟨fun k => ⟨rfl, rfl, rfl⟩, fun q => rfl⟩,
    rfl, rfl, rfl, rfl, rfl, by simp [counterWith]⟩

/-- C2 witness: an empty poll of a fresh target creates only the
`run_count` series, at 0. -/
theorem unseen_no_series_witness :
    initMetrics.runCount (pA.name, pA.ref) = none ∧
    (taskOnce pA apiEmpty 0 initMetrics).1 = TaskFlag.ok ∧
    (taskOnce pA apiEmpty 0 initMetrics).2.timeSinceLastRun = initMetrics.timeSinceLastRun ∧
    (taskOnce pA apiEmpty 0 initMetrics).2.runCount (pA.name, pA.ref) =
      some ((initMetrics.runCount (pA.name, pA.ref)).getD 0) :=
  ⟨rfl, (unseen_no_series pA apiEmpty 0 initMetrics gpA rfl rfl).2.1,
    (unseen_no_series pA apiEmpty 0 initMetrics gpA rfl rfl).2.2.1,
    (unseen_no_series pA apiEmpty 0 initMetrics gpA rfl rfl).2.2.2.2.2.2⟩

/-- C6 counterexample: a poll whose pipeline list is empty is not a no-op
on the metric set: on a fresh target the `run_count` series for the key
goes from absent to an existing series reading 0 (main.go line 95 runs
before the empty check of lines 102-104). -/
theorem emptyPoll_noop_counterexample :
    initMetrics.runCount ("proj-a", "main") = none ∧
    (taskOnce pA apiEmpty 0 initMetrics).2.runCount ("proj-a", "main") = some 0 := by
  decide

/-- C6 (amended): an empty pipeline list makes `taskOnce` return normally
("no data" is not an error) without setting any gauge or incrementing any
counter: every series keeps its value, and the only change to the metric
set is that the polled key's `run_count` series is instantiated at 0 when
it was absent. -/
theorem emptyPoll_writes_nothing (p : project) (api : Api) (now : Int)
    (m0 : Metrics) (gp : GoProject)
    (h1 : api.getProjectApi p.name = ApiResult.ok gp)
    (h2 : api.listPipelines gp.id p.ref = ApiResult.ok []) :
    (taskOnce p api now m0).1 = TaskFlag.ok ∧
    (∀ k : LabelKey, (taskOnce p api now m0).2.timeSinceLastRun k = m0.timeSinceLastRun k) ∧
    (∀ k : LabelKey, (taskOnce p api now m0).2.lastRunDuration k = m0.lastRunDuration k) ∧
    (∀ q : StatusKey, (taskOnce p api now m0).2.status q = m0.status q) ∧
    (∀ k : LabelKey, k ≠ (p.name, p.ref) →
      (taskOnce p api now m0).2.runCount k = m0.runCount k) ∧
    (∀ v : Int, m0.runCount (p.name, p.ref) = some v →
      (taskOnce p api now m0).2.runCount (p.name, p.ref) = some v) ∧
    (m0.runCount (p.name, p.ref) = none →
      (taskOnce p api now m0).2.runCount (p.name, p.ref) = some 0) := by
  rw [taskOnce_empty_eq p api now m0 gp h1 h2]
  refine ⟨rfl, fun k => rfl, fun k => rfl, fun q => rfl, ?_, ?_, ?_⟩
  · intro k hk
    simp [counterWith, hk]
  · intro v hv
    simp [counterWith, hv]
  · intro hv
    simp [counterWith, hv]

/-- C6 witness: an empty poll at a concrete target, its hypotheses and the
value-preservation conclusions instantiated. -/
theorem emptyPoll_writes_nothing_witness :
    apiEmpty.getProjectApi pA.name = ApiResult.ok gpA ∧
    apiEmpty.listPipelines gpA.id pA.ref = ApiResult.ok [] ∧
    (taskOnce pA apiEmpty 0 initMetrics).1 = TaskFlag.ok ∧
    (taskOnce pA apiEmpty 0 initMetrics).2.lastRunDuration (pA.name, pA.ref) =
      initMetrics.lastRunDuration (pA.name, pA.ref) ∧
    (taskOnce pA apiEmpty 0 initMetrics).2.runCount ("other", "dev") =
      initMetrics.runCount ("other", "dev") ∧
    (taskOnce pA apiEmpty 0 initMetrics).2.runCount (pA.name, pA.ref) = some 0 :=
  ⟨rfl, rfl, (emptyPoll_writes_nothing pA apiEmpty 0 initMetrics gpA rfl rfl).1,
    (emptyPoll_writes_nothing pA apiEmpty 0 initMetrics gpA rfl rfl).2.2.1 (pA.name, pA.ref),
    (emptyPoll_writes_nothing pA apiEmpty 0 initMetrics gpA rfl rfl).2.2.2.2.1
      ("other", "dev") (by decide),
    (emptyPoll_writes_nothing pA apiEmpty 0 initMetrics gpA rfl rfl).2.2.2.2.2.2 rfl⟩

/-- C1 evaluated at the failing input: the first poll observes pipeline
101 with status `running`; the second poll observes id 101 with the
different status `success`.  The claim requires `run_count` to be
incremented by exactly 1 on the second poll, but it still reads 0: the
`lastPipeline` variable of `taskOnce` is function-local (main.go line 94),
so it is nil on every call and the increment branch of lines 106-108 never
executes. -/
theorem runCount_not_incremented_on_change :
    mRun1.runCount ("proj-a", "main") = some 0 ∧
    mRun1.status ("proj-a", "main", "running") = some 1 ∧
    (taskOnce pA apiSucc101 60000000000 mRun1).1 = TaskFlag.ok ∧
    (taskOnce pA apiSucc101 60000000000 mRun1).2.status ("proj-a", "main", "success") = some 1 ∧
    (taskOnce pA apiSucc101 60000000000 mRun1).2.runCount ("proj-a", "main") = some 0 := by
  decide

/-- C3 evaluated at the failing input: both polls list the same pipeline
(id 101, status `running`), so the second poll is "unchanged" in the
claim's sense; yet the code re-fetches the pipeline detail (the detail now
reports duration 20 instead of 10) and rewrites `last_run_duration` from
10 to 20, because the function-local `lastPipeline` (main.go line 94) is
nil on every call and the changed branch of line 105 is always taken. -/
theorem unchangedPoll_rewrites_duration :
    mRun1.lastRunDuration ("proj-a", "main") = some 10 ∧
    (taskOnce pA apiRun101b 60000000000 mRun1).1 = TaskFlag.ok ∧
    (taskOnce pA apiRun101b 60000000000 mRun1).2.lastRunDuration ("proj-a", "main") = some 20 ∧
    (taskOnce pA apiRun101b 60000000000 mRun1).2.runCount ("proj-a", "main") = some 0 := by
  decide

/-- C5: a wildcard entry with ref `R` expands to exactly one target per
owned project returned by the API, each paired with ref `R` (so N projects
give N targets); a non-wildcard entry passes through unchanged; and a poll
of one target writes no metric series of any other label key, so the
expanded targets are polled with no metric cross-contamination. -/
theorem wildcard_expansion (owned : List GoProject) (R : String) (p : project)
    (api : Api) (now : Int) (m0 : Metrics) :
    (expandOne owned { name := "*", ref := R } =
      owned.map (fun pw => { name := pw.pathWithNamespace, ref := R })) ∧
    ((expandOne owned { name := "*", ref := R }).length = owned.length) ∧
    (∀ q ∈ expandOne owned { name := "*", ref := R }, q.ref = R) ∧
    (p.name ≠ "*" → expandOne owned p = [p]) ∧
    (∀ k : LabelKey, k ≠ (p.name, p.ref) →
      (taskOnce p api now m0).2.timeSinceLastRun k = m0.timeSinceLastRun k ∧
      (taskOnce p api now m0).2.lastRunDuration k = m0.lastRunDuration k ∧
      (taskOnce p api now m0).2.runCount k = m0.runCount k) ∧
    (∀ q : StatusKey, (q.1, q.2.1) ≠ (p.name, p.ref) →
      (taskOnce p api now m0).2.status q = m0.status q) := by
  refine ⟨?_, ?_, ?_, ?_, ?_, ?_⟩
  · simp [expandOne]
  · simp [expandOne]
  · intro q hq
    have he : expandOne owned { name := "*", ref := R } =
        owned.map (fun pw => { name := pw.pathWithNamespace, ref := R }) := by
      simp [expandOne]
    rw [he, List.mem_map] at hq
    obtain ⟨pw, _, rfl⟩ := hq
    rfl
  · intro h
    simp [expandOne, h]
  · intro k hk
    exact taskOnce_frame_label p api now m0 k hk
  · intro q hq
    exact taskOnce_frame_status p api now m0 q hq

/-- C5 witness: expansion of one owned project, pass-through of a
non-wildcard entry, and absence of writes to a foreign label key. -/
theorem wildcard_expansion_witness :
    expandOne [gpA] { name := "*", ref := "main" } =
      [{ name := "group/proj-a", ref := "main" }] ∧
    pA.name ≠ "*" ∧
    expandOne [gpA] pA = [pA] ∧
    (taskOnce pA apiRun101 0 initMetrics).2.runCount ("other", "dev") =
      initMetrics.runCount ("other", "dev") ∧
    (taskOnce pA apiRun101 0 initMetrics).2.status ("other", "dev", "success") =
      initMetrics.status ("other", "dev", "success") :=
  ⟨(wildcard_expansion [gpA] "main" pA apiRun101 0 initMetrics).1,
    by decide,
    (wildcard_expansion [gpA] "main" pA apiRun101 0 initMetrics).2.2.2.1 (by decide),
    ((wildcard_expansion [gpA] "main" pA apiRun101 0 initMetrics).2.2.2.2.1
      ("other", "dev") (by decide)).2.2,
    (wildcard_expansion [gpA] "main" pA apiRun101 0 initMetrics).2.2.2.2.2
      ("other", "dev", "success") (by decide)⟩
